import Mathlib

/-!
Shallow embedding of the error-capture demo harness of the
`javascript-errors` repository (the page-controller script: `log`,
`resetErrorHandlers`, the five `use*` mode activators, `protectEntryPoint`,
`useProtectedEntryPoints`, `catchError`, `invokeError`), together with
proofs of the spec's testable properties about it.

The embedding models JavaScript values as an inductive type with explicit
truthiness and string coercion, the controller's global mutable state as an
explicit record threaded through each operation, and fallible calls as
`Except` values (a thrown JS value on the `error` side).
-/

/-- A JavaScript value, as far as the demo harness inspects one: the
primitives with their truthiness, `Error` objects carrying `message` and
`stack`, and zero-argument function values described by their behavior when
called (`fnThrows e` throws the value `e`; `fnReturns v` returns `v`;
`protectedFn orig` is the wrapper closure created by `protectEntryPoint`). -/
inductive JSVal where
  | undefined : JSVal
  | null : JSVal
  | boolean : Bool → JSVal
  | number : Int → JSVal
  | string : String → JSVal
  | errObj : String → String → JSVal
  | fnThrows : JSVal → JSVal
  | fnReturns : JSVal → JSVal
  | protectedFn : JSVal → JSVal
deriving DecidableEq

/-- JavaScript truthiness: `undefined`, `null`, `false`, `0` and the empty
string are falsy; objects and functions are truthy. -/
def truthy : JSVal → Bool
  | JSVal.undefined => false
  | JSVal.null => false
  | JSVal.boolean b => b
  | JSVal.number n => n != 0
  | JSVal.string s => s != ""
  | _ => true

/-- JavaScript string coercion as used by the harness's `+` concatenations.
An `Error` object stringifies to `"Error: " ++ message`; the harness never
relies on the (host-defined) source text of a function, so function values
coerce to a fixed placeholder. -/
def jsToString : JSVal → String
  | JSVal.undefined => "undefined"
  | JSVal.null => "null"
  | JSVal.boolean true => "true"
  | JSVal.boolean false => "false"
  | JSVal.number n => toString n
  | JSVal.string s => s
  | JSVal.errObj msg _ => "Error: " ++ msg
  | JSVal.fnThrows _ => "function"
  | JSVal.fnReturns _ => "function"
  | JSVal.protectedFn _ => "function"

/-- The `.stack` property access: present only on `Error` objects, producing
`undefined` on every other value (in particular on thrown strings). -/
def stackOf : JSVal → JSVal
  | JSVal.errObj _ stack => JSVal.string stack
  | _ => JSVal.undefined

/-- The `.message` property access: present only on `Error` objects. -/
def messageOf : JSVal → JSVal
  | JSVal.errObj msg _ => JSVal.string msg
  | _ => JSVal.undefined

/-- The report string both catch branches of the source build from a caught
value `e`: `"Error object: " + e + "\nStack Trace: " + e.stack`. -/
def errorReport (e : JSVal) : String :=
  "Error object: " ++ jsToString e ++ "\nStack Trace: " ++ jsToString (stackOf e)

/-- The value a host throws when a non-callable value is invoked (the exact
message text is host-defined; the harness never inspects it). -/
def typeErrorNotCallable : JSVal :=
  JSVal.errObj "is not a function" "TypeError"

/-- The logging sink of the harness (`log(content, append)`), acting on the
displayed console text: append concatenates, otherwise the content replaces
the display. -/
def log (content : String) (append : Bool) (console : String) : String :=
  if append then console ++ content else content

/-- `protectEntryPoint(fn)` from the source: a falsy argument is returned as
`undefined` with no wrapper created; otherwise the `protectedFn` wrapper
closure over the argument is returned. -/
def protectEntryPoint (fn : JSVal) : JSVal :=
  if truthy fn then JSVal.protectedFn fn else JSVal.undefined

/-- Calling a zero-argument JS value: the pair of the call's outcome
(`Except.error e` when the value `e` is thrown) and the console text after
the call. A `protectedFn` wrapper runs its wrapped function inside
`try/catch`: on success it forwards the return value, on a throw it logs the
`errorReport` (replacing the console, per the source's `log(...)` call with
no `append` argument) and falls off the catch branch, returning `undefined`.
Invoking a non-function throws the host's type error. -/
def callJS : JSVal → String → Except JSVal JSVal × String
  | JSVal.fnThrows e, console => (Except.error e, console)
  | JSVal.fnReturns v, console => (Except.ok v, console)
  | JSVal.protectedFn orig, console =>
    match callJS orig console with
    | (Except.ok v, console2) => (Except.ok v, console2)
    | (Except.error e, console2) =>
      (Except.ok JSVal.undefined, log (errorReport e) false console2)
  | _, console => (Except.error typeErrorNotCallable, console)

/-- Whether a JS value is a function value. -/
def isFunction : JSVal → Bool
  | JSVal.fnThrows _ => true
  | JSVal.fnReturns _ => true
  | JSVal.protectedFn _ => true
  | _ => false

/-- The value held by the process-wide `window.setTimeout` slot: either the
host's pristine scheduler or the `protectedTimeout` wrapper closure
installed by `useProtectedEntryPoints` (the wrapper reads the global
`_oldSetTimeout` at call time, so it carries no captured target). -/
inductive SchedFun where
  | orig : SchedFun
  | protectedTimeout : SchedFun
deriving DecidableEq

/-- The value held by the process-wide `Promise.prototype.then` slot: the
host's pristine continuation registrar or the `protectedThen` wrapper. -/
inductive ThenFun where
  | orig : ThenFun
  | protectedThen : ThenFun
deriving DecidableEq

/-- The page-global mutable state the controller script touches: the five
mode-button class names, the `window.onerror` slot (only ever `undefined` or
the one handler `useWindowOnError` installs, so a flag suffices), the
`_useTryCatch` flag, the two process-wide facility slots, the two
saved-original globals `_oldSetTimeout` / `_oldPromiseThen` (`undefined`
before the first `useProtectedEntryPoints`), whether `errorEventListener`
is registered, and the console element's displayed text. -/
structure CState where
  noerrorhandlerClass : String
  windowonerrorClass : String
  trycatchClass : String
  protectedentrypointClass : String
  windowaddeventlistenerClass : String
  onerrorInstalled : Bool
  _useTryCatch : Bool
  windowSetTimeout : SchedFun
  promiseThen : ThenFun
  _oldSetTimeout : Option SchedFun
  _oldPromiseThen : Option ThenFun
  errorListenerOn : Bool
  console : String
deriving DecidableEq

/-- The pristine page state before any script ran: no wrappers installed,
no saved originals, no handlers, empty console. -/
def initState : CState :=
  { noerrorhandlerClass := ""
    windowonerrorClass := ""
    trycatchClass := ""
    protectedentrypointClass := ""
    windowaddeventlistenerClass := ""
    onerrorInstalled := false
    _useTryCatch := false
    windowSetTimeout := SchedFun.orig
    promiseThen := ThenFun.orig
    _oldSetTimeout := none
    _oldPromiseThen := none
    errorListenerOn := false
    console := "" }

/-- `resetErrorHandlers()` from the source: clears the five mode-button
class names, removes `window.onerror`, clears `_useTryCatch`, restores
`window.setTimeout` from `_oldSetTimeout` and `Promise.prototype.then` from
`_oldPromiseThen` when those are truthy (leaving the saved slots
themselves untouched), and removes the error event listener. -/
def resetErrorHandlers (st : CState) : CState :=
  { st with
    noerrorhandlerClass := ""
    windowonerrorClass := ""
    trycatchClass := ""
    protectedentrypointClass := ""
    windowaddeventlistenerClass := ""
    onerrorInstalled := false
    _useTryCatch := false
    windowSetTimeout :=
      match st._oldSetTimeout with
      | some f => f
      | none => st.windowSetTimeout
    promiseThen :=
      match st._oldPromiseThen with
      | some f => f
      | none => st.promiseThen
    errorListenerOn := false }

/-- `useNoErrorHandler()` from the source. -/
def useNoErrorHandler (st : CState) : CState :=
  { resetErrorHandlers st with noerrorhandlerClass := "active" }

/-- `useWindowOnError()` from the source: after the reset, marks its button
active and installs the window.onerror closure (whose behavior is embedded
separately as `windowOnErrorHandler`). -/
def useWindowOnError (st : CState) : CState :=
  { resetErrorHandlers st with
    windowonerrorClass := "active"
    onerrorInstalled := true }

/-- `useTryCatch()` from the source: after the reset, marks its button
active and sets the `_useTryCatch` flag. -/
def useTryCatch (st : CState) : CState :=
  { resetErrorHandlers st with
    trycatchClass := "active"
    _useTryCatch := true }

/-- `useProtectedEntryPoints()` from the source: after the reset, saves the
current `window.setTimeout` into `_oldSetTimeout` and overwrites the slot
with the `protectedTimeout` wrapper, then does the same for
`Promise.prototype.then` with `_oldPromiseThen` / `protectedThen`,
in that order. -/
def useProtectedEntryPoints (st : CState) : CState :=
  let st1 := { resetErrorHandlers st with protectedentrypointClass := "active" }
  let st2 := { st1 with
    _oldSetTimeout := some st1.windowSetTimeout
    windowSetTimeout := SchedFun.protectedTimeout }
  { st2 with
    _oldPromiseThen := some st2.promiseThen
    promiseThen := ThenFun.protectedThen }

/-- `useWindowAddEventListener()` from the source: after the reset, marks
its button active and registers `errorEventListener`. -/
def useWindowAddEventListener (st : CState) : CState :=
  { resetErrorHandlers st with
    windowaddeventlistenerClass := "active"
    errorListenerOn := true }

/-- The spec's enumeration of mutually exclusive capture strategies. -/
inductive CaptureMode where
  | NONE : CaptureMode
  | GLOBAL_HANDLER : CaptureMode
  | TRY_CATCH : CaptureMode
  | PROTECTED_ENTRY_POINTS : CaptureMode
  | EVENT_LISTENER : CaptureMode
deriving DecidableEq

/-- The spec's `activate(mode)`, dispatching to the source's activator for
each capture mode. -/
def activate : CaptureMode → CState → CState
  | CaptureMode.NONE, st => useNoErrorHandler st
  | CaptureMode.GLOBAL_HANDLER, st => useWindowOnError st
  | CaptureMode.TRY_CATCH, st => useTryCatch st
  | CaptureMode.PROTECTED_ENTRY_POINTS, st => useProtectedEntryPoints st
  | CaptureMode.EVENT_LISTENER, st => useWindowAddEventListener st

/-- Running a sequence of mode activations in order. -/
def runActs : List CaptureMode → CState → CState
  | [], st => st
  | m :: ms, st => runActs ms (activate m st)

/-- `catchError(fn)` from the source: calls `fn()` inside `try/catch`; on a
throw, logs the `errorReport` of the caught value (replacing the console).
It never rethrows, so its result is a plain state. -/
def catchError (fn : JSVal) (st : CState) : CState :=
  match callJS fn st.console with
  | (Except.ok _, console2) => { st with console := console2 }
  | (Except.error e, console2) =>
    { st with console := log (errorReport e) false console2 }

/-- `invokeError(fn)` from the source: when `_useTryCatch` is set, runs
`catchError(fn)` (never throwing); otherwise calls `fn()` bare, so a thrown
value propagates to the caller as the `Except.error` side. -/
def invokeError (fn : JSVal) (st : CState) : Except JSVal CState :=
  if st._useTryCatch then
    Except.ok (catchError fn st)
  else
    match callJS fn st.console with
    | (Except.ok _, console2) => Except.ok { st with console := console2 }
    | (Except.error e, _) => Except.error e

/-- Whether `msg.indexOf('from worker') != -1`: `leadsWith` is prefix
matching on character lists and `hasSub` scans every suffix. -/
def leadsWith : List Char → List Char → Bool
  | [], _ => true
  | _ :: _, [] => false
  | p :: ps, c :: cs => p == c && leadsWith ps cs

/-- Substring scan over character lists (see `leadsWith`). -/
def hasSub (pat : List Char) : List Char → Bool
  | [] => leadsWith pat []
  | c :: cs => leadsWith pat (c :: cs) || hasSub pat cs

/-- The source's worker-origin test on a message:
`msg.indexOf('from worker') != -1`. -/
def hasWorkerMarker (msg : String) : Bool :=
  hasSub "from worker".toList msg.toList

/-- The diagnostic text the `useWindowOnError` handler builds from its five
arguments; `!!error && error.stack` yields the boolean `false` (stringified)
when `error` is falsy and `error.stack` otherwise. -/
def onErrorContent (msg url : String) (line col : Int) (error : JSVal) : String :=
  "Message: " ++ msg ++ "\n" ++
  "URL: " ++ url ++ "\n" ++
  "Line: " ++ toString line ++ "\n" ++
  "Column: " ++ toString col ++ "\n" ++
  "Error: " ++ jsToString (if truthy error then stackOf error else JSVal.boolean false)

/-- The closure `useWindowOnError` installs on `window.onerror`: builds
`onErrorContent` and, when the message carries the worker-origin marker,
appends it to the console under a banner; otherwise replaces the console
with it. -/
def windowOnErrorHandler (msg url : String) (line col : Int) (error : JSVal)
    (console : String) : String :=
  let content := onErrorContent msg url line col error
  if hasWorkerMarker msg then
    log ("\n\nError info from window.onerror:\n" ++ content) true console
  else
    log content false console

/-- The call one invocation of `window.setTimeout` hands to an underlying
scheduler facility: the facility that finally receives it and the full
argument list it is given. -/
structure SchedCall where
  target : SchedFun
  args : List JSVal
deriving DecidableEq

/-- One call `window.setTimeout(args...)` in state `st`, unfolded one step:
the pristine scheduler receives the argument list as given; the
`protectedTimeout` wrapper is declared `function protectedTimeout(fn, time)`
so it binds `fn` and `time` to the first two call arguments (missing ones
as `undefined`) and runs `return _oldSetTimeout.call(window,
protectEntryPoint(fn), time)` — handing the global `_oldSetTimeout` exactly
the two arguments `protectEntryPoint fn` and `time` (and throwing the
host's type error if `_oldSetTimeout` is still `undefined`). -/
def dispatchSetTimeout (st : CState) (args : List JSVal) : Except JSVal SchedCall :=
  match st.windowSetTimeout with
  | SchedFun.orig => Except.ok ⟨SchedFun.orig, args⟩
  | SchedFun.protectedTimeout =>
    match st._oldSetTimeout with
    | none => Except.error typeErrorNotCallable
    | some f =>
      Except.ok ⟨f, [protectEntryPoint (args.getD 0 JSVal.undefined),
                     args.getD 1 JSVal.undefined]⟩

/-- Well-formedness of the facility slots, preserved by every activation
from the pristine page state: each saved-original global is either still
`undefined` or holds the pristine facility, and whenever a saved original
is missing the live slot still holds the pristine facility. -/
def GoodSlots (st : CState) : Prop :=
  (st._oldSetTimeout = none ∨ st._oldSetTimeout = some SchedFun.orig) ∧
  (st._oldPromiseThen = none ∨ st._oldPromiseThen = some ThenFun.orig) ∧
  (st.windowSetTimeout = SchedFun.orig ∨ st._oldSetTimeout = some SchedFun.orig) ∧
  (st.promiseThen = ThenFun.orig ∨ st._oldPromiseThen = some ThenFun.orig)

lemma goodSlots_initState : GoodSlots initState :=
  ⟨Or.inl rfl, Or.inl rfl, Or.inl rfl, Or.inl rfl⟩

lemma reset_windowSetTimeout (st : CState) (h : GoodSlots st) :
    (resetErrorHandlers st).windowSetTimeout = SchedFun.orig := by
  obtain ⟨h1, _, h3, _⟩ := h
  rcases h1 with h1 | h1
  · rcases h3 with h3 | h3
    · simp [resetErrorHandlers, h1, h3]
    · rw [h1] at h3; exact absurd h3 (by simp)
  · simp [resetErrorHandlers, h1]

lemma reset_promiseThen (st : CState) (h : GoodSlots st) :
    (resetErrorHandlers st).promiseThen = ThenFun.orig := by
  obtain ⟨_, h2, _, h4⟩ := h
  rcases h2 with h2 | h2
  · rcases h4 with h4 | h4
    · simp [resetErrorHandlers, h2, h4]
    · rw [h2] at h4; exact absurd h4 (by simp)
  · simp [resetErrorHandlers, h2]

lemma goodSlots_activate (m : CaptureMode) (st : CState) (h : GoodSlots st) :
    GoodSlots (activate m st) := by
  have hw := reset_windowSetTimeout st h
  have hp := reset_promiseThen st h
  obtain ⟨h1, h2, _, _⟩ := h
  cases m with
  | NONE => exact ⟨h1, h2, Or.inl hw, Or.inl hp⟩
  | GLOBAL_HANDLER => exact ⟨h1, h2, Or.inl hw, Or.inl hp⟩
  | TRY_CATCH => exact ⟨h1, h2, Or.inl hw, Or.inl hp⟩
  | EVENT_LISTENER => exact ⟨h1, h2, Or.inl hw, Or.inl hp⟩
  | PROTECTED_ENTRY_POINTS =>
    refine ⟨Or.inr ?_, Or.inr ?_, Or.inr ?_, Or.inr ?_⟩ <;>
      exact congrArg some (by assumption)

lemma goodSlots_runActs (ms : List CaptureMode) (st : CState) (h : GoodSlots st) :
    GoodSlots (runActs ms st) := by
  induction ms generalizing st with
  | nil => exact h
  | cons m ms ih => exact ih _ (goodSlots_activate m st h)

lemma dispatch_wrapper (st : CState)
    (hw : st.windowSetTimeout = SchedFun.protectedTimeout)
    (ho : st._oldSetTimeout = some SchedFun.orig) (args : List JSVal) :
    dispatchSetTimeout st args =
      Except.ok ⟨SchedFun.orig, [protectEntryPoint (args.getD 0 JSVal.undefined),
                                 args.getD 1 JSVal.undefined]⟩ := by
  unfold dispatchSetTimeout
  rw [hw, ho]

/-- C1: for every pair of capture modes A and B, running `activate A` then
`activate B` (after any prior activation history from the pristine page)
leaves both overridden process-wide facilities — `window.setTimeout` and
`Promise.prototype.then` — equal to their pristine pre-override references,
unless B itself is `PROTECTED_ENTRY_POINTS`; no wrapper installed under A
survives the switch to B. (`activate A` itself resets before overriding, so
the references in place just before A overrides anything are exactly the
pristine ones.) -/
theorem activate_pair_restores_originals (seq : List CaptureMode)
    (A B : CaptureMode) (hB : B ≠ CaptureMode.PROTECTED_ENTRY_POINTS) :
    (activate B (activate A (runActs seq initState))).windowSetTimeout = SchedFun.orig ∧
    (activate B (activate A (runActs seq initState))).promiseThen = ThenFun.orig := by
  have hst : GoodSlots (activate A (runActs seq initState)) :=
    goodSlots_activate _ _ (goodSlots_runActs _ _ goodSlots_initState)
  cases B with
  | PROTECTED_ENTRY_POINTS => exact absurd rfl hB
  | NONE => exact ⟨reset_windowSetTimeout _ hst, reset_promiseThen _ hst⟩
  | GLOBAL_HANDLER => exact ⟨reset_windowSetTimeout _ hst, reset_promiseThen _ hst⟩
  | TRY_CATCH => exact ⟨reset_windowSetTimeout _ hst, reset_promiseThen _ hst⟩
  | EVENT_LISTENER => exact ⟨reset_windowSetTimeout _ hst, reset_promiseThen _ hst⟩

/-- Witness for C1 at a concrete transition: activating
`PROTECTED_ENTRY_POINTS` and then `NONE` from the pristine page restores
both facilities. -/
theorem activate_pair_restores_originals_witness :
    (activate CaptureMode.NONE (activate CaptureMode.PROTECTED_ENTRY_POINTS
      (runActs [] initState))).windowSetTimeout = SchedFun.orig ∧
    (activate CaptureMode.NONE (activate CaptureMode.PROTECTED_ENTRY_POINTS
      (runActs [] initState))).promiseThen = ThenFun.orig :=
  activate_pair_restores_originals [] CaptureMode.PROTECTED_ENTRY_POINTS
    CaptureMode.NONE (by decide)

/-- C4: two consecutive `activate PROTECTED_ENTRY_POINTS` calls (after any
prior activation history from the pristine page) leave exactly one
saved-original pair: `_oldSetTimeout` and `_oldPromiseThen` hold the
pristine facilities, and the installed slots hold the wrappers, which
delegate to those saved originals — so the originals are wrapped exactly
once, never a wrapper around a wrapper. -/
theorem double_protected_single_save (seq : List CaptureMode) :
    (activate CaptureMode.PROTECTED_ENTRY_POINTS (activate
      CaptureMode.PROTECTED_ENTRY_POINTS (runActs seq initState)))._oldSetTimeout =
        some SchedFun.orig ∧
    (activate CaptureMode.PROTECTED_ENTRY_POINTS (activate
      CaptureMode.PROTECTED_ENTRY_POINTS (runActs seq initState)))._oldPromiseThen =
        some ThenFun.orig ∧
    (activate CaptureMode.PROTECTED_ENTRY_POINTS (activate
      CaptureMode.PROTECTED_ENTRY_POINTS (runActs seq initState))).windowSetTimeout =
        SchedFun.protectedTimeout ∧
    (activate CaptureMode.PROTECTED_ENTRY_POINTS (activate
      CaptureMode.PROTECTED_ENTRY_POINTS (runActs seq initState))).promiseThen =
        ThenFun.protectedThen := by
  have hst0 : GoodSlots (runActs seq initState) :=
    goodSlots_runActs _ _ goodSlots_initState
  exact ⟨congrArg some (reset_windowSetTimeout _ hst0),
         congrArg some (reset_promiseThen _ hst0), rfl, rfl⟩

/-- C7 (amended): under `PROTECTED_ENTRY_POINTS` (activated after any prior
history from the pristine page), every call to the replacement scheduler
hands the saved original scheduler exactly two arguments —
`protectEntryPoint` of the callback and the delay unchanged; any further
call arguments (the ones `setTimeout` would relay to the callback) are
dropped by the fixed-arity wrapper. -/
theorem protected_scheduler_forwards (seq : List CaptureMode) (args : List JSVal) :
    dispatchSetTimeout (activate CaptureMode.PROTECTED_ENTRY_POINTS
      (runActs seq initState)) args =
      Except.ok ⟨SchedFun.orig, [protectEntryPoint (args.getD 0 JSVal.undefined),
                                 args.getD 1 JSVal.undefined]⟩ := by
  have hst : GoodSlots (runActs seq initState) :=
    goodSlots_runActs _ _ goodSlots_initState
  exact dispatch_wrapper _ rfl (congrArg some (reset_windowSetTimeout _ hst)) args

/-- Counterexample to C7 as stated: a `window.setTimeout(cb, 10, 7)` call
under freshly activated `PROTECTED_ENTRY_POINTS` does not hand the original
scheduler all arguments beyond the callback unchanged — the extra argument
`7` destined for the callback is dropped, because the wrapper is declared
with the two parameters `(fn, time)` and forwards only those. -/
theorem protectedTimeout_drops_extra_args :
    dispatchSetTimeout (activate CaptureMode.PROTECTED_ENTRY_POINTS initState)
      [JSVal.fnReturns JSVal.undefined, JSVal.number 10, JSVal.number 7] ≠
    Except.ok ⟨SchedFun.orig,
      [protectEntryPoint (JSVal.fnReturns JSVal.undefined), JSVal.number 10,
       JSVal.number 7]⟩ := by
  intro h
  have h2 : Except.ok (⟨SchedFun.orig,
      [protectEntryPoint (JSVal.fnReturns JSVal.undefined),
       JSVal.number 10]⟩ : SchedCall) =
    Except.ok (⟨SchedFun.orig,
      [protectEntryPoint (JSVal.fnReturns JSVal.undefined), JSVal.number 10,
       JSVal.number 7]⟩ : SchedCall) := h
  simp at h2

/-- C6: `resetErrorHandlers` is idempotent — from any controller state,
running it twice yields exactly the same state (mode buttons, global
handler, try/catch flag, event listener, scheduler and promise-registrar
slots, saved originals, console) as running it once; in the embedding it is
moreover a total function, reflecting that every restoration step checks
presence before restoring and no call can fail. -/
theorem resetErrorHandlers_idempotent (st : CState) :
    resetErrorHandlers (resetErrorHandlers st) = resetErrorHandlers st := by
  rcases h1 : st._oldSetTimeout with _ | f <;>
    rcases h2 : st._oldPromiseThen with _ | g <;>
      simp [resetErrorHandlers, h1, h2]

/-- C2: when the `_useTryCatch` flag is set (mode `TRY_CATCH`),
`invokeError fn` never lets a value thrown by `fn` escape to its caller —
it always returns normally — and for every `fn` that throws `e`, the sink
ends up holding the report built from the thrown value (its string form,
which carries the message, and its stack). -/
theorem invokeError_tryCatch_no_escape (st : CState) (fn : JSVal)
    (h : st._useTryCatch = true) :
    (∃ st2, invokeError fn st = Except.ok st2) ∧
    (∀ e, fn = JSVal.fnThrows e →
      invokeError fn st = Except.ok { st with console := errorReport e }) := by
  constructor
  · exact ⟨catchError fn st, by simp [invokeError, h]⟩
  · rintro e rfl
    simp [invokeError, h, catchError, callJS, log]

/-- Witness for C2: under `activate TRY_CATCH` from the pristine page, a
fault function throwing an `Error` object is swallowed and its report
reaches the console. -/
theorem invokeError_tryCatch_no_escape_witness :
    invokeError (JSVal.fnThrows (JSVal.errObj "Some error message" "stack0"))
        (activate CaptureMode.TRY_CATCH initState) =
      Except.ok { activate CaptureMode.TRY_CATCH initState with
        console := errorReport (JSVal.errObj "Some error message" "stack0") } :=
  (invokeError_tryCatch_no_escape (activate CaptureMode.TRY_CATCH initState)
      (JSVal.fnThrows (JSVal.errObj "Some error message" "stack0")) rfl).2
    (JSVal.errObj "Some error message" "stack0") rfl

/-- C3: when the `_useTryCatch` flag is clear (mode `NONE`), `invokeError`
calls the fault function bare, so every thrown value propagates out to the
caller unchanged. -/
theorem invokeError_none_escapes (st : CState) (fn e : JSVal)
    (hflag : st._useTryCatch = false) (hfn : fn = JSVal.fnThrows e) :
    invokeError fn st = Except.error e := by
  subst hfn
  simp [invokeError, hflag, callJS]

/-- Witness for C3: in the pristine page state a throwing fault function
escapes `invokeError` as the thrown `Error` object. -/
theorem invokeError_none_escapes_witness :
    invokeError (JSVal.fnThrows (JSVal.errObj "Some error message" "stack1"))
        initState =
      Except.error (JSVal.errObj "Some error message" "stack1") :=
  invokeError_none_escapes initState _ _ rfl rfl

/-- C5: `protectEntryPoint` on an absent (`undefined`) callback returns the
absent value unchanged and creates no wrapper. -/
theorem protectEntryPoint_undefined_absent :
    protectEntryPoint JSVal.undefined = JSVal.undefined := rfl

/-- C9: `protectEntryPoint` returns `undefined` for every falsy argument,
not only an absent one — `null`, `0`, the empty string and `false` all come
back as `undefined` rather than a wrapper, because the absence check is
plain falsiness. -/
theorem protectEntryPoint_falsy_all_undefined :
    protectEntryPoint JSVal.null = JSVal.undefined ∧
    protectEntryPoint (JSVal.number 0) = JSVal.undefined ∧
    protectEntryPoint (JSVal.string "") = JSVal.undefined ∧
    protectEntryPoint (JSVal.boolean false) = JSVal.undefined := by
  refine ⟨rfl, by decide, by decide, rfl⟩

/-- C10: for every function value that throws, calling its
`protectEntryPoint` wrapper returns `undefined` to the wrapper's caller
after the report of the thrown value replaces the console — the catch
branch produces no return value. -/
theorem protect_throwing_fn_returns_undefined (f e : JSVal) (c : String)
    (hf : isFunction f = true) (hthrow : callJS f c = (Except.error e, c)) :
    callJS (protectEntryPoint f) c =
      (Except.ok JSVal.undefined, log (errorReport e) false c) := by
  cases f with
  | fnThrows e2 =>
    have he : e2 = e := by simpa [callJS] using hthrow
    subst he
    simp [protectEntryPoint, truthy, callJS]
  | fnReturns v => simp [callJS] at hthrow
  | protectedFn g =>
    exfalso
    rcases h3 : callJS g c with ⟨r, c2⟩
    cases r with
    | ok v => simp [callJS, h3] at hthrow
    | error e2 => simp [callJS, h3] at hthrow
  | undefined => simp [isFunction] at hf
  | null => simp [isFunction] at hf
  | boolean b => simp [isFunction] at hf
  | number n => simp [isFunction] at hf
  | string s => simp [isFunction] at hf
  | errObj m s => simp [isFunction] at hf

/-- Witness for C10: the wrapper of a function throwing an `Error` object
yields `undefined` and leaves the report on the console. -/
theorem protect_throwing_fn_returns_undefined_witness :
    callJS (protectEntryPoint (JSVal.fnThrows (JSVal.errObj "Some error message"
        "stack2"))) "" =
      (Except.ok JSVal.undefined,
        log (errorReport (JSVal.errObj "Some error message" "stack2")) false "") :=
  protect_throwing_fn_returns_undefined
    (JSVal.fnThrows (JSVal.errObj "Some error message" "stack2"))
    (JSVal.errObj "Some error message" "stack2") "" rfl rfl

/-- C8: `activate GLOBAL_HANDLER` installs the window.onerror handler, and
for every intercepted error that handler appends its report to the existing
console content exactly when the message contains the worker-origin marker
string (the source tests `msg.indexOf('from worker') != -1`), and otherwise
replaces the console content with the report. -/
theorem windowOnError_append_iff_worker_marker (st : CState) (msg url : String)
    (line col : Int) (error : JSVal) (c : String) :
    (activate CaptureMode.GLOBAL_HANDLER st).onerrorInstalled = true ∧
    (hasWorkerMarker msg = true →
      windowOnErrorHandler msg url line col error c =
        c ++ ("\n\nError info from window.onerror:\n" ++
          onErrorContent msg url line col error)) ∧
    (hasWorkerMarker msg = false →
      windowOnErrorHandler msg url line col error c =
        onErrorContent msg url line col error) := by
  refine ⟨rfl, ?_, ?_⟩ <;> intro h <;> simp [windowOnErrorHandler, log, h]

/-- Witness for C8 at two concrete messages: one carrying the worker-origin
marker (appended under the banner) and one without it (replacing the
console). -/
theorem windowOnError_append_iff_worker_marker_witness :
    windowOnErrorHandler "Uncaught Error: Error from worker" "w.js" 4 9
        JSVal.undefined "prev" =
      "prev" ++ ("\n\nError info from window.onerror:\n" ++
        onErrorContent "Uncaught Error: Error from worker" "w.js" 4 9
          JSVal.undefined) ∧
    windowOnErrorHandler "Some error message" "a.js" 4 9 JSVal.undefined
        "prev" =
      onErrorContent "Some error message" "a.js" 4 9 JSVal.undefined :=
  ⟨(windowOnError_append_iff_worker_marker initState
      "Uncaught Error: Error from worker" "w.js" 4 9 JSVal.undefined
      "prev").2.1 (by decide),
   (windowOnError_append_iff_worker_marker initState "Some error message"
      "a.js" 4 9 JSVal.undefined "prev").2.2 (by decide)⟩
